import Mathlib

/-!
Shallow embedding of the forecast acquisition/normalization pipeline and
analysis layer of the weather-alert repository
(src/weather_alert/{weather,geocode,history,rules,analysis}.py).

Python floats are modelled as rationals (`ℚ`), nullable JSON values as
`Option`, raised exceptions as `Except` errors.  `round(x, n)` in Python
is round-half-to-even; `pyRoundInt`/`pyRound` model that exactly.
-/

namespace WeatherAlert

/-- Python `round(q)` to an integer: round half to even. -/
def pyRoundInt (q : ℚ) : ℤ :=
  let f : ℤ := ⌊q⌋
  let r : ℚ := q - (f : ℚ)
  if r < 1/2 then f
  else if 1/2 < r then f + 1
  else if f % 2 = 0 then f else f + 1

/-- Python `round(q, ndigits)` for `ndigits ≥ 0`: round half to even at the
given decimal place. -/
def pyRound (ndigits : ℕ) (q : ℚ) : ℚ :=
  (pyRoundInt (q * 10 ^ ndigits) : ℚ) / 10 ^ ndigits

/-- The 16-point compass rose from `degrees_to_compass` (weather.py). -/
def compassLabels : List String :=
  ["N", "NNE", "NE", "ENE",
   "E", "ESE", "SE", "SSE",
   "S", "SSW", "SW", "WSW",
   "W", "WNW", "NW", "NNW"]

/-- Model of `degrees_to_compass` (weather.py): each segment is 360/16 = 22.5° wide;
`index = round(degrees / 22.5) % 16`.  the Python `%` on ints yields a
nonnegative result for a positive modulus, matching `Int.emod`.  The list
index is therefore always in range, so the `getD` default is never used. -/
def degrees_to_compass (degrees : ℚ) : String :=
  compassLabels.getD (pyRoundInt (degrees / (45/2)) % 16).toNat ("N")

/-- The `hourly` block of an Open-Meteo forecast response: parallel arrays
indexed by position (weather.py, `_parse_hourly`).  Fields that the parser
guards with `or 0` (and `precipitation_probability`, which it deliberately
passes through) are nullable. -/
structure HourlyData where
  time : List String
  temperature_2m : List ℚ
  apparent_temperature : List ℚ
  precipitation_probability : List (Option ℤ)
  windspeed_10m : List ℚ
  winddirection_10m : List ℚ
  weathercode : List ℤ
  relativehumidity_2m : List ℤ
  snowfall : List (Option ℚ)
  snow_depth : List (Option ℚ)
deriving DecidableEq

/-- One normalized hourly forecast record (output dict of `_parse_hourly`). -/
structure HourlyRecord where
  time : String
  temperature : ℚ
  feels_like : ℚ
  precipitation_probability : Option ℤ
  wind_speed : ℚ
  wind_direction : String
  weathercode : ℤ
  humidity : ℤ
  snowfall : ℚ
  snow_depth : ℚ
deriving DecidableEq

/-- The record `_parse_hourly` builds for index `i` of the parallel arrays:
`snowfall[i] or 0`, `round((snow_depth[i] or 0) * 100, 1)` (m → cm), raw
pass-through for `precipitation_probability`, compass conversion for the
wind bearing.  Out-of-range indices take `getD` defaults (the parser only
uses in-range indices). -/
def mkHourlyRecord (data : HourlyData) (i : ℕ) : HourlyRecord where
  time := data.time.getD i ("")
  temperature := data.temperature_2m.getD i 0
  feels_like := data.apparent_temperature.getD i 0
  precipitation_probability := data.precipitation_probability.getD i none
  wind_speed := data.windspeed_10m.getD i 0
  wind_direction := degrees_to_compass (data.winddirection_10m.getD i 0)
  weathercode := data.weathercode.getD i 0
  humidity := data.relativehumidity_2m.getD i 0
  snowfall := (data.snowfall.getD i none).getD 0
  snow_depth := pyRound 1 (((data.snow_depth.getD i none).getD 0) * 100)

/-- Failure modes of the slicing step of `_parse_hourly`.  `timeOutOfRange` is the
`RuntimeError` whose message interpolates the requested time and
`times[0]`/`times[-1]`; `indexError` is the `IndexError` Python raises while
building that very message when `times` is empty. -/
inductive ParseError where
  | timeOutOfRange (requested first last : String)
  | indexError
deriving DecidableEq

/-- Discriminator: is this failure the `TimeOutOfRange` kind? -/
def ParseError.isTimeOutOfRange : ParseError → Bool
  | .timeOutOfRange _ _ _ => true
  | .indexError => false

/-- Python `list.index` returning an index instead of raising: position of the
first occurrence of `target`, or `none` (the `ValueError` branch). -/
def listIndex (target : String) : List String → Option ℕ
  | [] => none
  | t :: ts => if t = target then some 0 else (listIndex target ts).map (· + 1)

/-- Model of `_parse_hourly` (weather.py): locate the target hour string in the time
array, then slice `forecast_hours` records forward, clipped to available
length: `for i in range(start, min(start + forecast_hours, len(times)))`. -/
def parse_hourly (data : HourlyData) (forecast_hours : ℕ) (target_time_str : String) :
    Except ParseError (List HourlyRecord) :=
  match listIndex target_time_str data.time with
  | some start =>
      Except.ok ((List.range' start (min (start + forecast_hours) data.time.length - start)).map
        (mkHourlyRecord data))
  | none =>
      match data.time.head?, data.time.getLast? with
      | some first, some last =>
          Except.error (ParseError.timeOutOfRange target_time_str first last)
      | _, _ => Except.error ParseError.indexError

/-- Alert payloads (rules.py).  The Python checks return formatted strings;
each constructor carries exactly the data interpolated into that string. -/
inductive Alert where
  | rain (prob : ℤ) (time : String) (threshold : ℤ)
  | wind (speed : ℚ) (time : String) (threshold : ℚ)
  | cold (temperature : ℚ) (time : String) (min_temp : ℚ)
  | feelsCold (feels : ℚ) (time : String) (min_feels_like : ℚ)
deriving DecidableEq

/-- Constant `TEMPERATURE_LOOKAHEAD_HOURS` (rules.py): fixed 3-hour window. -/
def TEMPERATURE_LOOKAHEAD_HOURS : ℕ := 3

/-- Model of `check_rain` (rules.py): first `lookahead_hours` entries, trigger on
`prob >= threshold` (inclusive), null probability coerced by `or 0`. -/
def check_rain (forecast : List HourlyRecord) (threshold : ℤ) (lookahead_hours : ℕ) :
    Option Alert :=
  (forecast.take lookahead_hours).findSome? fun hour =>
    let prob := hour.precipitation_probability.getD 0
    if prob ≥ threshold then some (Alert.rain prob hour.time threshold) else none

/-- Model of `check_wind` (rules.py): only `forecast[0]`, trigger on
`speed >= threshold` (inclusive); empty forecast returns `None`. -/
def check_wind (forecast : List HourlyRecord) (threshold : ℚ) : Option Alert :=
  match forecast with
  | [] => none
  | next_hour :: _ =>
      if next_hour.wind_speed ≥ threshold then
        some (Alert.wind next_hour.wind_speed next_hour.time threshold)
      else none

/-- Model of `check_temperature` (rules.py): first 3 entries, trigger on
`temp < min_temp` (strict). -/
def check_temperature (forecast : List HourlyRecord) (min_temp : ℚ) : Option Alert :=
  (forecast.take TEMPERATURE_LOOKAHEAD_HOURS).findSome? fun hour =>
    if hour.temperature < min_temp then
      some (Alert.cold hour.temperature hour.time min_temp)
    else none

/-- Model of `check_feels_like` (rules.py): first 3 entries, trigger on
`feels < min_feels_like` (strict). -/
def check_feels_like (forecast : List HourlyRecord) (min_feels_like : ℚ) : Option Alert :=
  (forecast.take TEMPERATURE_LOOKAHEAD_HOURS).findSome? fun hour =>
    if hour.feels_like < min_feels_like then
      some (Alert.feelsCold hour.feels_like hour.time min_feels_like)
    else none

/-- The `alerts` section of the configuration (config shape used by
`evaluate_rules`). -/
structure AlertsConfig where
  rain_probability_threshold : ℤ
  wind_speed_threshold : ℚ
  temperature_min : ℚ
  feels_like_min : ℚ
  lookahead_hours : ℕ

/-- A configuration document with an `alerts` section. -/
structure Config where
  alerts : AlertsConfig

/-- Model of `evaluate_rules` (rules.py): run the four checks in fixed order and keep
only the triggered ones. -/
def evaluate_rules (forecast : List HourlyRecord) (config : Config) : List Alert :=
  [check_rain forecast config.alerts.rain_probability_threshold config.alerts.lookahead_hours,
   check_wind forecast config.alerts.wind_speed_threshold,
   check_temperature forecast config.alerts.temperature_min,
   check_feels_like forecast config.alerts.feels_like_min].filterMap id

/-- One entry of the `results` array of a geocoding response (geocode.py). -/
structure GeoEntry where
  name : Option String
  admin1 : Option String
  country : Option String
  latitude : ℚ
  longitude : ℚ
deriving DecidableEq

/-- A geocoding response: `data.get("results")` may be absent. -/
structure GeoData where
  results : Option (List GeoEntry)
deriving DecidableEq

/-- The dict `geocode` returns on success. -/
structure ResolvedLocation where
  latitude : ℚ
  longitude : ℚ
  name : String
deriving DecidableEq

/-- What `geocode` (geocode.py) raises when `results` is missing or empty:
`SystemExit(1)`, carrying only the exit code.  The message naming the place
is only printed to stdout, not part of the exception. -/
inductive GeocodeFailure where
  | systemExit (code : ℕ)
deriving DecidableEq

/-- Model of `geocode` (geocode.py), the parse stage after `with_retry` has returned a
response.  `if not results` covers both a missing key and an empty array.
Truthiness of `admin1`/`country` (skip null and empty string) follows the
Python `if result.get(...)` test. -/
def geocode (place : String) (data : GeoData) : Except GeocodeFailure ResolvedLocation :=
  match data.results with
  | none => Except.error (GeocodeFailure.systemExit 1)
  | some [] => Except.error (GeocodeFailure.systemExit 1)
  | some (result :: _) =>
      let name_parts : List String :=
        [result.name.getD place] ++
        (result.admin1.filter fun a => decide (a ≠ "")).toList ++
        (result.country.filter fun c => decide (c ≠ "")).toList
      Except.ok
        { latitude := result.latitude
          longitude := result.longitude
          name := String.intercalate (", ") name_parts }

/-- A calendar date (`datetime.date`): only the fields the analysis layer
reads. -/
structure Date where
  year : ℤ
  month : ℕ
  day : ℕ
deriving DecidableEq

/-- The `daily` block of an Open-Meteo archive response (history.py):
parallel arrays, every numeric field nullable.  ISO date strings are
modelled as already-parsed `Date` values (`date.fromisoformat`). -/
structure DailyData where
  time : List Date
  temperature_2m_max : List (Option ℚ)
  temperature_2m_min : List (Option ℚ)
  temperature_2m_mean : List (Option ℚ)
  precipitation_sum : List (Option ℚ)
  snowfall_sum : List (Option ℚ)
  snow_depth_max : List (Option ℚ)
  windspeed_10m_max : List (Option ℚ)
deriving DecidableEq

/-- One normalized daily historical record (output dict of `_parse_daily`). -/
structure DailyHistoricalRecord where
  date : Date
  temp_max : ℚ
  temp_min : ℚ
  temp_mean : ℚ
  precipitation : ℚ
  snowfall : ℚ
  snow_depth_max : ℚ
  wind_max : ℚ
deriving DecidableEq

/-- The record `_parse_daily` (history.py) builds for index `i`:
`float(x[i]) if x[i] is not None else 0.0` for every numeric field. -/
def mkDailyRecord (data : DailyData) (i : ℕ) : DailyHistoricalRecord where
  date := data.time.getD i ⟨0, 1, 1⟩
  temp_max := (data.temperature_2m_max.getD i none).getD 0
  temp_min := (data.temperature_2m_min.getD i none).getD 0
  temp_mean := (data.temperature_2m_mean.getD i none).getD 0
  precipitation := (data.precipitation_sum.getD i none).getD 0
  snowfall := (data.snowfall_sum.getD i none).getD 0
  snow_depth_max := (data.snow_depth_max.getD i none).getD 0
  wind_max := (data.windspeed_10m_max.getD i none).getD 0

/-- Model of `_parse_daily` (history.py): one record per entry of the `time` array. -/
def parse_daily (data : DailyData) : List DailyHistoricalRecord :=
  (List.range data.time.length).map (mkDailyRecord data)

/-- One yearly aggregate produced by `yearly_summary` (analysis.py). -/
structure YearlySummary where
  year : ℤ
  avg_temp_max : ℚ
  avg_temp_min : ℚ
  avg_temp_mean : ℚ
  total_precipitation : ℚ
  total_snowfall : ℚ
  max_snow_depth : ℚ
  snow_days : ℕ
  rain_days : ℕ
  max_temp : ℚ
  min_temp : ℚ
  hottest_date : Date
  coldest_date : Date
deriving DecidableEq

/-- Python `max(days, key=lambda d: d["temp_max"])`: first maximal element
(strictly-greater replacement while scanning). -/
def pyMaxByTempMax (d0 : DailyHistoricalRecord) (rest : List DailyHistoricalRecord) :
    DailyHistoricalRecord :=
  rest.foldl (fun best d => if d.temp_max > best.temp_max then d else best) d0

/-- Python `min(days, key=lambda d: d["temp_min"])`: first minimal element. -/
def pyMinByTempMin (d0 : DailyHistoricalRecord) (rest : List DailyHistoricalRecord) :
    DailyHistoricalRecord :=
  rest.foldl (fun best d => if d.temp_min < best.temp_min then d else best) d0

/-- The summary dict `yearly_summary` appends for the group of days of one
year.
An empty group is skipped (`if n == 0: continue`), hence `Option`. -/
def summarizeYear (year : ℤ) : List DailyHistoricalRecord → Option YearlySummary
  | [] => none
  | d0 :: rest =>
      let days := d0 :: rest
      let n : ℚ := (days.length : ℚ)
      let hottest := pyMaxByTempMax d0 rest
      let coldest := pyMinByTempMin d0 rest
      some
        { year := year
          avg_temp_max := pyRound 2 ((days.map fun d => d.temp_max).sum / n)
          avg_temp_min := pyRound 2 ((days.map fun d => d.temp_min).sum / n)
          avg_temp_mean := pyRound 2 ((days.map fun d => d.temp_mean).sum / n)
          total_precipitation := pyRound 1 (days.map fun d => d.precipitation).sum
          total_snowfall := pyRound 1 (days.map fun d => d.snowfall).sum
          max_snow_depth := pyRound 1 ((rest.map fun d => d.snow_depth_max).foldl max d0.snow_depth_max)
          snow_days := (days.filter fun d => decide (d.snowfall > 0)).length
          rain_days := (days.filter fun d => decide (d.precipitation > 1)).length
          max_temp := hottest.temp_max
          min_temp := coldest.temp_min
          hottest_date := hottest.date
          coldest_date := coldest.date }

/-- The set of calendar years present in the input (keys of `by_year`). -/
def yearsOf (records : List DailyHistoricalRecord) : Finset ℤ :=
  (records.map fun r => r.date.year).toFinset

/-- Model of `yearly_summary` (analysis.py): group by `date.year`, iterate the years
in ascending order (`for year in sorted(by_year)`), summarize each group.
Grouping by `defaultdict(list).append` preserves input order inside each
group, which `List.filter` reproduces. -/
def yearly_summary (records : List DailyHistoricalRecord) : List YearlySummary :=
  ((yearsOf records).sort (· ≤ ·)).filterMap fun year =>
    summarizeYear year (records.filter fun r => decide (r.date.year = year))

/-- The dict returned by `temperature_trend` (analysis.py). -/
structure TrendResult where
  slope : ℚ
  slope_per_decade : ℚ
  r_squared : ℚ
  label : String
deriving DecidableEq

/-- The OLS denominator `n * sum_x2 - sum_x ** 2` of `temperature_trend`. -/
def olsDenom (yearly : List YearlySummary) : ℚ :=
  let xs := yearly.map fun y => (y.year : ℚ)
  (yearly.length : ℚ) * (xs.map fun x => x * x).sum - xs.sum ^ 2

/-- The raw (unrounded) OLS slope
`(n * sum_xy - sum_x * sum_y) / denom` of `temperature_trend`. -/
def olsSlope (yearly : List YearlySummary) : ℚ :=
  let xs := yearly.map fun y => (y.year : ℚ)
  let ys := yearly.map fun y => y.avg_temp_mean
  ((yearly.length : ℚ) * ((xs.zip ys).map fun p => p.1 * p.2).sum - xs.sum * ys.sum) /
    olsDenom yearly

/-- Model of `temperature_trend` (analysis.py): OLS of `avg_temp_mean` against year.
Fewer than 2 entries or a zero denominator short-circuit to the all-zero
"stable" result.  The label comparison uses the raw slope against ±0.005;
`slope_per_decade = round(slope * 10, 2)`. -/
def temperature_trend (yearly : List YearlySummary) : TrendResult :=
  if yearly.length < 2 then ⟨0, 0, 0, "stable"⟩
  else if olsDenom yearly = 0 then ⟨0, 0, 0, "stable"⟩
  else
    let xs := yearly.map fun y => (y.year : ℚ)
    let ys := yearly.map fun y => y.avg_temp_mean
    let n : ℚ := (yearly.length : ℚ)
    let slope := olsSlope yearly
    let intercept := (ys.sum - slope * xs.sum) / n
    let y_mean := ys.sum / n
    let ss_tot : ℚ := (ys.map fun y => (y - y_mean) ^ 2).sum
    let ss_res : ℚ := ((xs.zip ys).map fun p => (p.2 - (slope * p.1 + intercept)) ^ 2).sum
    let r_sq : ℚ := if ss_tot > 0 then 1 - ss_res / ss_tot else 0
    { slope := pyRound 4 slope
      slope_per_decade := pyRound 2 (slope * 10)
      r_squared := pyRound 4 r_sq
      label :=
        if slope > 1/200 then ("warming")
        else if slope < -(1/200) then ("cooling")
        else ("stable") }

/-- A concrete hourly record used to exercise the rule checks. -/
def sampleHour : HourlyRecord where
  time := "2024-01-01T00:00"
  temperature := 5
  feels_like := 5
  precipitation_probability := none
  wind_speed := 30
  wind_direction := "N"
  weathercode := 0
  humidity := 50
  snowfall := 0
  snow_depth := 0

/-- A concrete three-hour Open-Meteo hourly payload with nulls at index 0. -/
def sampleHourlyPayload : HourlyData where
  time := ["2024-01-01T00:00", "2024-01-01T01:00", "2024-01-01T02:00"]
  temperature_2m := [1, 2, 3]
  apparent_temperature := [0, 1, 2]
  precipitation_probability := [none, some 40, some 90]
  windspeed_10m := [10, 20, 30]
  winddirection_10m := [0, 90, 180]
  weathercode := [0, 1, 2]
  relativehumidity_2m := [50, 60, 70]
  snowfall := [none, some 1, some 2]
  snow_depth := [none, some (1/4), some (1/2)]

/-- An hourly payload whose parallel arrays are all empty. -/
def emptyHourlyPayload : HourlyData where
  time := []
  temperature_2m := []
  apparent_temperature := []
  precipitation_probability := []
  windspeed_10m := []
  winddirection_10m := []
  weathercode := []
  relativehumidity_2m := []
  snowfall := []
  snow_depth := []

/-- A one-day archive payload in which every numeric field is null. -/
def sampleArchive : DailyData where
  time := [⟨2020, 1, 1⟩]
  temperature_2m_max := [none]
  temperature_2m_min := [none]
  temperature_2m_mean := [none]
  precipitation_sum := [none]
  snowfall_sum := [none]
  snow_depth_max := [none]
  windspeed_10m_max := [none]

/-- A daily historical record: 0.5 mm precipitation, no snow. -/
def sampleDayA : DailyHistoricalRecord where
  date := ⟨2020, 1, 1⟩
  temp_max := 5
  temp_min := -1
  temp_mean := 2
  precipitation := 1/2
  snowfall := 0
  snow_depth_max := 0
  wind_max := 10

/-- A second record in the same year: 0.3 mm precipitation, no snow. -/
def sampleDayB : DailyHistoricalRecord :=
  { sampleDayA with date := ⟨2020, 1, 2⟩, precipitation := 3/10 }

/-- Two same-year days with 0.5 mm and 0.3 mm of precipitation. -/
def sampleRecords : List DailyHistoricalRecord := [sampleDayA, sampleDayB]

/-- A yearly summary for year 0 with mean temperature 10. -/
def sampleSummaryA : YearlySummary where
  year := 0
  avg_temp_max := 0
  avg_temp_min := 0
  avg_temp_mean := 10
  total_precipitation := 0
  total_snowfall := 0
  max_snow_depth := 0
  snow_days := 0
  rain_days := 0
  max_temp := 0
  min_temp := 0
  hottest_date := ⟨0, 1, 1⟩
  coldest_date := ⟨0, 1, 1⟩

/-- A yearly summary for year 1 with mean temperature 11. -/
def sampleSummaryB : YearlySummary :=
  { sampleSummaryA with year := 1, avg_temp_mean := 11 }

/-- Two yearly summaries whose OLS slope is exactly 1 °C per year. -/
def sampleYearly : List YearlySummary := [sampleSummaryA, sampleSummaryB]

/-- Unfolding helper: once the rounded index is known, the compass lookup is
pure list indexing. -/
lemma degrees_to_compass_eval (d : ℚ) (k : ℤ) (hk : pyRoundInt (d / (45/2)) = k) :
    degrees_to_compass d = compassLabels.getD (k % 16).toNat ("N") := by
  unfold degrees_to_compass
  rw [hk]

/-- C9: the wind-bearing conversion indexes `round(degrees / 22.5) % 16` into
the 16-point rose N..NNW; 0° ↦ N, 90° ↦ E, 180° ↦ S, 270° ↦ W,
22.5° ↦ NNE, and 360° wraps to N. -/
theorem degrees_to_compass_spec :
    (∀ d : ℚ, degrees_to_compass d =
      compassLabels.getD (pyRoundInt (d / (45/2)) % 16).toNat ("N")) ∧
    compassLabels = ["N", "NNE", "NE", "ENE", "E", "ESE", "SE", "SSE",
                     "S", "SSW", "SW", "WSW", "W", "WNW", "NW", "NNW"] ∧
    degrees_to_compass 0 = "N" ∧
    degrees_to_compass 90 = "E" ∧
    degrees_to_compass 180 = "S" ∧
    degrees_to_compass 270 = "W" ∧
    degrees_to_compass (45/2) = "NNE" ∧
    degrees_to_compass 360 = "N" := by
  refine ⟨fun d => rfl, rfl, ?_, ?_, ?_, ?_, ?_, ?_⟩
  · rw [degrees_to_compass_eval 0 0 (by norm_num [pyRoundInt])]; decide
  · rw [degrees_to_compass_eval 90 4 (by norm_num [pyRoundInt])]; decide
  · rw [degrees_to_compass_eval 180 8 (by norm_num [pyRoundInt])]; decide
  · rw [degrees_to_compass_eval 270 12 (by norm_num [pyRoundInt])]; decide
  · rw [degrees_to_compass_eval (45/2) 1 (by norm_num [pyRoundInt])]; decide
  · rw [degrees_to_compass_eval 360 16 (by norm_num [pyRoundInt])]; decide

/-- C10: on the empty forecast every check returns `None` and
`evaluate_rules` returns the empty alert list, for any configuration with an
alerts section. -/
theorem evaluate_rules_empty_forecast (config : Config) (threshold : ℤ)
    (lookahead : ℕ) (wind_threshold min_temp min_feels : ℚ) :
    evaluate_rules [] config = [] ∧
    check_rain [] threshold lookahead = none ∧
    check_wind [] wind_threshold = none ∧
    check_temperature [] min_temp = none ∧
    check_feels_like [] min_feels = none := by
  refine ⟨?_, ?_, rfl, rfl, rfl⟩
  · simp [evaluate_rules, check_rain, check_wind, check_temperature, check_feels_like]
  · simp [check_rain]

/-- C10 witness: a concrete configuration evaluated on the empty forecast. -/
theorem evaluate_rules_empty_forecast_witness :
    evaluate_rules [] ⟨⟨50, 30, 5, 2, 3⟩⟩ = [] ∧
    check_wind [] 30 = none :=
  ⟨(evaluate_rules_empty_forecast ⟨⟨50, 30, 5, 2, 3⟩⟩ 50 3 30 5 2).1,
   (evaluate_rules_empty_forecast ⟨⟨50, 30, 5, 2, 3⟩⟩ 50 3 30 5 2).2.2.1⟩

/-- C6: wind speed exactly equal to the threshold triggers `check_wind`
(inclusive ≥), while a forecast whose first three entries all sit exactly at
`min_temp` does not trigger `check_temperature` (strict <). -/
theorem rule_boundary (rec : HourlyRecord) (rest : List HourlyRecord)
    (forecast : List HourlyRecord) (threshold min_temp : ℚ)
    (hw : rec.wind_speed = threshold)
    (ht : ∀ hour ∈ forecast.take TEMPERATURE_LOOKAHEAD_HOURS,
      hour.temperature = min_temp) :
    check_wind (rec :: rest) threshold =
      some (Alert.wind rec.wind_speed rec.time threshold) ∧
    check_temperature forecast min_temp = none := by
  constructor
  · subst hw
    simp [check_wind]
  · unfold check_temperature
    rw [List.findSome?_eq_none_iff]
    intro hour hmem
    rw [ht hour hmem]
    simp

/-- C6 witness: an hour with wind speed exactly 30 against threshold 30, and
three hours at exactly the minimum temperature 5. -/
theorem rule_boundary_witness :
    check_wind [sampleHour] 30 =
      some (Alert.wind sampleHour.wind_speed sampleHour.time 30) ∧
    check_temperature [sampleHour, sampleHour, sampleHour] 5 = none := by
  refine rule_boundary sampleHour [] [sampleHour, sampleHour, sampleHour] 30 5 rfl ?_
  intro hour hmem
  have h3 : ([sampleHour, sampleHour, sampleHour].take TEMPERATURE_LOOKAHEAD_HOURS) =
      [sampleHour, sampleHour, sampleHour] := rfl
  rw [h3] at hmem
  simp only [List.mem_cons, List.not_mem_nil, or_false] at hmem
  rcases hmem with h | h | h <;> subst h <;> rfl

/-- C3 (code evaluated at the failing input): with an empty or missing
`results` array, `geocode` raises `SystemExit(1)` — an exception carrying
only the exit code, with no place name and no dedicated "location not found"
kind; the failure value is identical for any two place names. -/
theorem geocode_not_found_system_exit :
    geocode ("xyznonexistent") ⟨some []⟩ = Except.error (GeocodeFailure.systemExit 1) ∧
    geocode ("xyznonexistent") ⟨none⟩ = Except.error (GeocodeFailure.systemExit 1) ∧
    geocode ("Tokyo") ⟨some []⟩ = geocode ("Berlin") ⟨some []⟩ :=
  ⟨rfl, rfl, rfl⟩

/-- C8: the archive parser coerces every null numeric field to 0.0, every
record it returns is built from an in-range index, and a response covering
zero days yields the empty sequence rather than an error. -/
theorem parse_daily_null_coercion (data : DailyData) (i : ℕ) :
    ((data.temperature_2m_max.getD i none = none → (mkDailyRecord data i).temp_max = 0) ∧
     (data.temperature_2m_min.getD i none = none → (mkDailyRecord data i).temp_min = 0) ∧
     (data.temperature_2m_mean.getD i none = none → (mkDailyRecord data i).temp_mean = 0) ∧
     (data.precipitation_sum.getD i none = none → (mkDailyRecord data i).precipitation = 0) ∧
     (data.snowfall_sum.getD i none = none → (mkDailyRecord data i).snowfall = 0) ∧
     (data.snow_depth_max.getD i none = none → (mkDailyRecord data i).snow_depth_max = 0) ∧
     (data.windspeed_10m_max.getD i none = none → (mkDailyRecord data i).wind_max = 0)) ∧
    (∀ rec ∈ parse_daily data, ∃ j, j < data.time.length ∧ rec = mkDailyRecord data j) ∧
    (data.time = [] → parse_daily data = []) := by
  refine ⟨⟨?_, ?_, ?_, ?_, ?_, ?_, ?_⟩, ?_, ?_⟩
  · intro h; show (data.temperature_2m_max.getD i none).getD 0 = 0; rw [h]; rfl
  · intro h; show (data.temperature_2m_min.getD i none).getD 0 = 0; rw [h]; rfl
  · intro h; show (data.temperature_2m_mean.getD i none).getD 0 = 0; rw [h]; rfl
  · intro h; show (data.precipitation_sum.getD i none).getD 0 = 0; rw [h]; rfl
  · intro h; show (data.snowfall_sum.getD i none).getD 0 = 0; rw [h]; rfl
  · intro h; show (data.snow_depth_max.getD i none).getD 0 = 0; rw [h]; rfl
  · intro h; show (data.windspeed_10m_max.getD i none).getD 0 = 0; rw [h]; rfl
  · intro rec hmem
    unfold parse_daily at hmem
    rw [List.mem_map] at hmem
    obtain ⟨j, hj, rfl⟩ := hmem
    exact ⟨j, List.mem_range.mp hj, rfl⟩
  · intro h
    simp [parse_daily, h]

/-- C8 witness: a one-day archive response with every numeric field null
parses to a record of zeros. -/
theorem parse_daily_null_coercion_witness :
    sampleArchive.temperature_2m_max.getD 0 none = none ∧
    (mkDailyRecord sampleArchive 0).temp_max = 0 ∧
    (mkDailyRecord sampleArchive 0).temp_min = 0 ∧
    (mkDailyRecord sampleArchive 0).precipitation = 0 ∧
    (mkDailyRecord sampleArchive 0).snowfall = 0 ∧
    (mkDailyRecord sampleArchive 0).snow_depth_max = 0 ∧
    (mkDailyRecord sampleArchive 0).wind_max = 0 :=
  ⟨rfl,
   (parse_daily_null_coercion sampleArchive 0).1.1 rfl,
   (parse_daily_null_coercion sampleArchive 0).1.2.1 rfl,
   (parse_daily_null_coercion sampleArchive 0).1.2.2.2.1 rfl,
   (parse_daily_null_coercion sampleArchive 0).1.2.2.2.2.1 rfl,
   (parse_daily_null_coercion sampleArchive 0).1.2.2.2.2.2.1 rfl,
   (parse_daily_null_coercion sampleArchive 0).1.2.2.2.2.2.2 rfl⟩

/-- Helper: `listIndex` fails exactly when the target does not occur. -/
lemma listIndex_eq_none_iff (target : String) (l : List String) :
    listIndex target l = none ↔ target ∉ l := by
  induction l with
  | nil => simp [listIndex]
  | cons t ts ih =>
      by_cases h : t = target
      · subst h; simp [listIndex]
      · have h' : target ≠ t := fun e => h e.symm
        simp [listIndex, h, h', Option.map_eq_none', ih]

/-- Helper: a found index is in range. -/
lemma listIndex_lt_length (target : String) :
    ∀ (l : List String) (i : ℕ), listIndex target l = some i → i < l.length := by
  intro l
  induction l with
  | nil => intro i h; simp [listIndex] at h
  | cons t ts ih =>
      intro i h
      unfold listIndex at h
      by_cases ht : t = target
      · rw [if_pos ht] at h
        injection h with h
        subst h
        simp
      · rw [if_neg ht] at h
        rcases hmap : listIndex target ts with _ | j
        · rw [hmap] at h; simp at h
        · rw [hmap] at h
          simp only [Option.map_some'] at h
          injection h with h
          have := ih j hmap
          simp only [List.length_cons]
          omega

/-- C1: in the hourly parser, a null `precipitation_probability` is passed
through as null (no coercion), null `snowfall` defaults to 0, null
`snow_depth` defaults to 0, `snow_depth` is converted m → cm via
`round(x * 100, 1)`, and every record `parse_hourly` produces is of this
per-index shape. -/
theorem parse_hourly_null_policy (data : HourlyData) (i : ℕ) :
    ((mkHourlyRecord data i).precipitation_probability =
      data.precipitation_probability.getD i none) ∧
    (data.precipitation_probability.getD i none = none →
      (mkHourlyRecord data i).precipitation_probability = none) ∧
    (data.snowfall.getD i none = none → (mkHourlyRecord data i).snowfall = 0) ∧
    (data.snow_depth.getD i none = none → (mkHourlyRecord data i).snow_depth = 0) ∧
    ((mkHourlyRecord data i).snow_depth =
      pyRound 1 (((data.snow_depth.getD i none).getD 0) * 100)) ∧
    (∀ fh target recs, parse_hourly data fh target = Except.ok recs →
      ∀ rec ∈ recs, ∃ j, rec = mkHourlyRecord data j) := by
  refine ⟨rfl, ?_, ?_, ?_, rfl, ?_⟩
  · intro h
    show data.precipitation_probability.getD i none = none
    exact h
  · intro h
    show (data.snowfall.getD i none).getD 0 = 0
    rw [h]; rfl
  · intro h
    show pyRound 1 (((data.snow_depth.getD i none).getD 0) * 100) = 0
    rw [h]
    norm_num [pyRound, pyRoundInt]
  · intro fh target recs h rec hmem
    unfold parse_hourly at h
    rcases hidx : listIndex target data.time with _ | start
    · rw [hidx] at h
      rcases hh : data.time.head? with _ | f <;> rcases hg : data.time.getLast? with _ | la <;>
        rw [hh, hg] at h <;> simp at h
    · rw [hidx] at h
      injection h with h
      subst h
      rw [List.mem_map] at hmem
      obtain ⟨j, _, rfl⟩ := hmem
      exact ⟨j, rfl⟩

/-- C1 witness: at index 0 of the sample payload the provider sends nulls
for `precipitation_probability`, `snowfall` and `snow_depth`; the parsed
record keeps the null probability and zeroes the snow fields. -/
theorem parse_hourly_null_policy_witness :
    sampleHourlyPayload.precipitation_probability.getD 0 none = none ∧
    (mkHourlyRecord sampleHourlyPayload 0).precipitation_probability = none ∧
    (mkHourlyRecord sampleHourlyPayload 0).snowfall = 0 ∧
    (mkHourlyRecord sampleHourlyPayload 0).snow_depth = 0 :=
  ⟨rfl,
   (parse_hourly_null_policy sampleHourlyPayload 0).2.1 rfl,
   (parse_hourly_null_policy sampleHourlyPayload 0).2.2.1 rfl,
   (parse_hourly_null_policy sampleHourlyPayload 0).2.2.2.1 rfl⟩

/-- C4 counterexample: on a payload whose `time` array is empty, a missing
target makes the parser fail with an `IndexError` (raised while formatting
`times[0]`/`times[-1]` into the error message), not with the
`TimeOutOfRange` kind, even though the target does not occur in the array. -/
theorem parse_hourly_empty_time_not_time_out :
    parse_hourly emptyHourlyPayload 6 ("2024-01-01T00:00") =
      Except.error ParseError.indexError ∧
    ParseError.indexError.isTimeOutOfRange = false ∧
    "2024-01-01T00:00" ∉ emptyHourlyPayload.time :=
  ⟨rfl, rfl, by simp [emptyHourlyPayload]⟩

/-- C4 (amended): with a non-empty time array, a missing target fails with
`TimeOutOfRange`; a target found at index `i` yields exactly
`min forecast_hours (length - i)` records starting at index `i`, with no
error when fewer than `forecast_hours` entries remain. -/
theorem parse_hourly_window (data : HourlyData) (fh : ℕ) (target : String) :
    (listIndex target data.time = none ↔ target ∉ data.time) ∧
    (listIndex target data.time = none → data.time ≠ [] →
      ∃ first last, parse_hourly data fh target =
        Except.error (ParseError.timeOutOfRange target first last)) ∧
    (∀ i, listIndex target data.time = some i →
      ∃ recs, parse_hourly data fh target = Except.ok recs ∧
        recs.length = min fh (data.time.length - i) ∧
        ∀ j, (hj : j < recs.length) → recs.get ⟨j, hj⟩ = mkHourlyRecord data (i + j)) := by
  refine ⟨listIndex_eq_none_iff target data.time, ?_, ?_⟩
  · intro hnone hne
    obtain ⟨f, hf⟩ := Option.isSome_iff_exists.mp (List.head?_isSome.mpr hne)
    obtain ⟨la, hla⟩ := Option.isSome_iff_exists.mp (List.getLast?_isSome.mpr hne)
    refine ⟨f, la, ?_⟩
    unfold parse_hourly
    rw [hnone, hf, hla]
  · intro i hidx
    have hi : i < data.time.length := listIndex_lt_length target data.time i hidx
    refine ⟨(List.range' i (min (i + fh) data.time.length - i)).map (mkHourlyRecord data),
      ?_, ?_, ?_⟩
    · unfold parse_hourly
      rw [hidx]
    · rw [List.length_map, List.length_range']
      omega
    · intro j hj
      rw [List.get_eq_getElem, List.getElem_map]
      congr 1
      simp [List.getElem_range']

/-- C4 witness: in the three-hour sample payload the target
"2024-01-01T01:00" sits at index 1, and asking for 6 hours returns the
min 6 (3 - 1) = 2 remaining records without error. -/
theorem parse_hourly_window_witness :
    listIndex ("2024-01-01T01:00") sampleHourlyPayload.time = some 1 ∧
    ∃ recs, parse_hourly sampleHourlyPayload 6 ("2024-01-01T01:00") = Except.ok recs ∧
      recs.length = min 6 (sampleHourlyPayload.time.length - 1) := by
  have h : listIndex ("2024-01-01T01:00") sampleHourlyPayload.time = some 1 := by decide
  obtain ⟨recs, h1, h2, _⟩ :=
    (parse_hourly_window sampleHourlyPayload 6 ("2024-01-01T01:00")).2.2 1 h
  exact ⟨h, recs, h1, h2⟩

/-- C2: with at least 2 entries and a non-zero OLS denominator, the label is
"warming" iff the raw unrounded slope exceeds 0.005, "cooling" iff it is
below −0.005, "stable" otherwise, and
`slope_per_decade = round(slope * 10, 2)` of the raw slope. -/
theorem temperature_trend_label_spec (yearly : List YearlySummary)
    (h2 : 2 ≤ yearly.length) (hd : olsDenom yearly ≠ 0) :
    ((temperature_trend yearly).label = "warming" ↔ 1/200 < olsSlope yearly) ∧
    ((temperature_trend yearly).label = "cooling" ↔ olsSlope yearly < -(1/200)) ∧
    ((temperature_trend yearly).label = "stable" ↔
      olsSlope yearly ≤ 1/200 ∧ -(1/200) ≤ olsSlope yearly) ∧
    (temperature_trend yearly).slope_per_decade = pyRound 2 (olsSlope yearly * 10) := by
  have hlen : ¬ yearly.length < 2 := by omega
  unfold temperature_trend
  rw [if_neg hlen, if_neg hd]
  dsimp only
  by_cases hw : 1/200 < olsSlope yearly
  · have hc : ¬ olsSlope yearly < -(1/200) := by linarith
    rw [if_pos hw]
    exact ⟨⟨fun _ => hw, fun _ => rfl⟩,
      ⟨fun h => absurd h (by decide), fun h => absurd h hc⟩,
      ⟨fun h => absurd h (by decide), fun h => absurd hw (not_lt.mpr h.1)⟩, rfl⟩
  · by_cases hc : olsSlope yearly < -(1/200)
    · rw [if_neg hw, if_pos hc]
      exact ⟨⟨fun h => absurd h (by decide), fun h => absurd h hw⟩,
        ⟨fun _ => hc, fun _ => rfl⟩,
        ⟨fun h => absurd h (by decide), fun h => absurd hc (not_lt.mpr h.2)⟩, rfl⟩
    · rw [if_neg hw, if_neg hc]
      exact ⟨⟨fun h => absurd h (by decide), fun h => absurd h hw⟩,
        ⟨fun h => absurd h (by decide), fun h => absurd h hc⟩,
        ⟨fun _ => ⟨not_lt.mp hw, not_lt.mp hc⟩, fun _ => rfl⟩, rfl⟩

/-- C2 witness: two summaries (year 0 mean 10, year 1 mean 11) give raw
slope 1 > 0.005, so the label is "warming". -/
theorem temperature_trend_label_spec_witness :
    2 ≤ sampleYearly.length ∧ olsDenom sampleYearly ≠ 0 ∧
    ((temperature_trend sampleYearly).label = "warming" ↔ 1/200 < olsSlope sampleYearly) := by
  have ha : 2 ≤ sampleYearly.length := by decide
  have hb : olsDenom sampleYearly ≠ 0 := by
    norm_num [olsDenom, sampleYearly, sampleSummaryA, sampleSummaryB]
  exact ⟨ha, hb, (temperature_trend_label_spec sampleYearly ha hb).1⟩

/-- Helper: mapping `year` over a `filterMap` whose function always succeeds
with the given year recovers the input list. -/
lemma filterMap_map_year (l : List ℤ) (f : ℤ → Option YearlySummary)
    (h : ∀ y ∈ l, ∃ s, f y = some s ∧ s.year = y) :
    (l.filterMap f).map (fun s => s.year) = l := by
  induction l with
  | nil => rfl
  | cons a l ih =>
      obtain ⟨s, hfa, hy⟩ := h a (List.mem_cons_self a l)
      rw [List.filterMap_cons, hfa]
      simp only [List.map_cons]
      rw [hy, ih fun y hy' => h y (List.mem_cons_of_mem a hy')]

/-- Helper: a produced yearly summary carries the year it was built for. -/
lemma summarizeYear_year (year : ℤ) (days : List DailyHistoricalRecord) (s : YearlySummary)
    (h : summarizeYear year days = some s) : s.year = year := by
  rcases days with _ | ⟨d0, rest⟩
  · simp [summarizeYear] at h
  · unfold summarizeYear at h
    injection h with h
    subst h
    rfl

/-- Helper: the count and total fields of a produced yearly summary. -/
lemma summarizeYear_counts (year : ℤ) (days : List DailyHistoricalRecord) (s : YearlySummary)
    (h : summarizeYear year days = some s) :
    s.snow_days = (days.filter fun d => decide (d.snowfall > 0)).length ∧
    s.rain_days = (days.filter fun d => decide (d.precipitation > 1)).length ∧
    s.total_precipitation = pyRound 1 (days.map fun d => d.precipitation).sum := by
  rcases days with _ | ⟨d0, rest⟩
  · simp [summarizeYear] at h
  · unfold summarizeYear at h
    injection h with h
    subst h
    exact ⟨rfl, rfl, rfl⟩

/-- Helper: a year witnessed by some record has a nonempty filter group. -/
lemma filter_year_ne_nil (records : List DailyHistoricalRecord) (y : ℤ)
    (h : ∃ r ∈ records, r.date.year = y) :
    records.filter (fun r => decide (r.date.year = y)) ≠ [] := by
  obtain ⟨r, hr, hry⟩ := h
  intro hnil
  have hmem : r ∈ records.filter (fun r => decide (r.date.year = y)) :=
    List.mem_filter.mpr ⟨hr, by simp [hry]⟩
  rw [hnil] at hmem
  exact absurd hmem (List.not_mem_nil r)

/-- Helper: a nonempty group always summarizes, to its own year. -/
lemma summarizeYear_isSome (year : ℤ) (days : List DailyHistoricalRecord)
    (h : days ≠ []) : ∃ s, summarizeYear year days = some s ∧ s.year = year := by
  rcases days with _ | ⟨d0, rest⟩
  · exact absurd rfl h
  · exact ⟨_, rfl, rfl⟩

/-- Helper: the years of `yearly_summary` are exactly the sorted distinct
years of the input. -/
lemma yearly_summary_map_year (records : List DailyHistoricalRecord) :
    (yearly_summary records).map (fun s => s.year) = (yearsOf records).sort (· ≤ ·) := by
  unfold yearly_summary
  apply filterMap_map_year
  intro y hy
  have hex : ∃ r ∈ records, r.date.year = y := by
    rw [Finset.mem_sort] at hy
    unfold yearsOf at hy
    rw [List.mem_toFinset, List.mem_map] at hy
    obtain ⟨r, hr, hry⟩ := hy
    exact ⟨r, hr, hry⟩
  exact summarizeYear_isSome y _ (filter_year_ne_nil records y hex)

/-- C7: `yearly_summary` returns one entry per distinct calendar year of the
input (a year appears among the summaries iff some record has it, and the
year sequence is strictly increasing, hence duplicate-free), sorted
ascending; the empty input yields the empty output. -/
theorem yearly_summary_one_per_year (records : List DailyHistoricalRecord) :
    ((yearly_summary records).map fun s => s.year).Sorted (· < ·) ∧
    (∀ y : ℤ, (∃ s ∈ yearly_summary records, s.year = y) ↔
      ∃ r ∈ records, r.date.year = y) ∧
    yearly_summary [] = [] := by
  refine ⟨?_, ?_, ?_⟩
  · rw [yearly_summary_map_year]
    exact Finset.sort_sorted_lt _
  · intro y
    constructor
    · rintro ⟨s, hs, rfl⟩
      have hmem : s.year ∈ (yearly_summary records).map (fun s => s.year) :=
        List.mem_map_of_mem _ hs
      rw [yearly_summary_map_year, Finset.mem_sort] at hmem
      unfold yearsOf at hmem
      rw [List.mem_toFinset, List.mem_map] at hmem
      obtain ⟨r, hr, hry⟩ := hmem
      exact ⟨r, hr, hry⟩
    · intro hex
      have hy : y ∈ (yearsOf records).sort (· ≤ ·) := by
        rw [Finset.mem_sort]
        unfold yearsOf
        rw [List.mem_toFinset, List.mem_map]
        obtain ⟨r, hr, hry⟩ := hex
        exact ⟨r, hr, hry⟩
      rw [← yearly_summary_map_year, List.mem_map] at hy
      exact hy
  · simp [yearly_summary, yearsOf]

/-- C7 witness: the empty input evaluates to the empty output. -/
theorem yearly_summary_one_per_year_witness :
    yearly_summary [] = [] :=
  (yearly_summary_one_per_year []).2.2

/-- C5: in every produced summary, `snow_days` counts exactly the days of
that year with snowfall > 0, `rain_days` counts exactly the days with
precipitation strictly > 1.0 mm, and `total_precipitation` is the 1-decimal
rounded sum of the precipitation of that year. -/
theorem yearly_summary_day_counts (records : List DailyHistoricalRecord)
    (s : YearlySummary) (hs : s ∈ yearly_summary records) :
    s.snow_days = ((records.filter fun r => decide (r.date.year = s.year)).filter
      fun d => decide (d.snowfall > 0)).length ∧
    s.rain_days = ((records.filter fun r => decide (r.date.year = s.year)).filter
      fun d => decide (d.precipitation > 1)).length ∧
    s.total_precipitation =
      pyRound 1 ((records.filter fun r => decide (r.date.year = s.year)).map
        fun d => d.precipitation).sum := by
  unfold yearly_summary at hs
  rw [List.mem_filterMap] at hs
  obtain ⟨year, hyr, hsum⟩ := hs
  have hy : s.year = year := summarizeYear_year year _ s hsum
  rw [hy]
  exact summarizeYear_counts year _ s hsum

/-- C5 witness: two same-year days with 0.5 mm and 0.3 mm precipitation and
no snow give a summary with 0 snow days, 0 rain days (1.0 mm is not
exceeded) and total precipitation 0.8 mm. -/
theorem yearly_summary_day_counts_witness :
    ∃ s ∈ yearly_summary sampleRecords,
      s.snow_days = 0 ∧ s.rain_days = 0 ∧ s.total_precipitation = 4/5 := by
  have hy : (2020 : ℤ) ∈ (yearsOf sampleRecords).sort (· ≤ ·) := by
    rw [Finset.mem_sort]
    unfold yearsOf
    rw [List.mem_toFinset, List.mem_map]
    exact ⟨sampleDayA, by simp [sampleRecords], rfl⟩
  rw [← yearly_summary_map_year, List.mem_map] at hy
  obtain ⟨s, hs, hsy⟩ := hy
  obtain ⟨h1, h2, h3⟩ := yearly_summary_day_counts sampleRecords s hs
  rw [hsy] at h1 h2 h3
  have hfil : sampleRecords.filter (fun r => decide (r.date.year = 2020)) = sampleRecords := by
    simp [sampleRecords, sampleDayA, sampleDayB]
  rw [hfil] at h1 h2 h3
  refine ⟨s, hs, ?_, ?_, ?_⟩
  · rw [h1]
    have : (sampleRecords.filter fun d => decide (d.snowfall > 0)) = [] := by
      simp only [sampleRecords, sampleDayA, sampleDayB]
      norm_num
    rw [this]
    rfl
  · rw [h2]
    have : (sampleRecords.filter fun d => decide (d.precipitation > 1)) = [] := by
      simp only [sampleRecords, sampleDayA, sampleDayB]
      norm_num
    rw [this]
    rfl
  · rw [h3]
    norm_num [sampleRecords, sampleDayA, sampleDayB, pyRound, pyRoundInt]

end WeatherAlert
